import Mathlib

/-!
Shallow embedding of `src/hailo_apps_infra/common/hailo_rpi_common.py`.

Mapped frame memory is modelled as a list of byte values (`List Nat`).
A numpy array created over borrowed buffer memory is a non-owning view
recording an offset and a length; `ndarray.copy()` materialises the bytes
visible through the view at copy time, after which the array owns its
data.  Python exceptions become the error side of `Except`.
-/

deriving instance DecidableEq for Except

namespace HailoRpiCommon

/-- Python exceptions raised by the embedded fragment. -/
inductive PyError where
  | valueError (msg : String)
  | typeError (msg : String)
  | fileNotFoundError
  deriving DecidableEq, Repr

/-- A sliceable read-only view into mapped buffer memory (the Python
`map_info.data` object and its slices): an offset into the mapped bytes
and a length in bytes. -/
structure ByteView where
  off : Nat
  len : Nat
  deriving DecidableEq, Repr

/-- Python slice `b[:k]` of a byte view. -/
def ByteView.sliceTo (v : ByteView) (k : Nat) : ByteView :=
  ⟨v.off, min k v.len⟩

/-- Python slice `b[k:]` of a byte view. -/
def ByteView.sliceFrom (v : ByteView) (k : Nat) : ByteView :=
  ⟨v.off + min k v.len, v.len - k⟩

/-- Numpy dtypes used by the fragment (always `np.uint8`). -/
inductive NpDType where
  | uint8
  deriving DecidableEq, Repr

/-- Backing data of a numpy array: an owned byte list (after `.copy()`),
or a non-owning view into the mapped buffer memory. -/
inductive NpData where
  | owned (bytes : List Nat)
  | view (off len : Nat)
  deriving DecidableEq, Repr

/-- Bytes an array shows when read while `mem` is the current content of
the underlying mapped memory: owned data ignores `mem`, a view reads
through it. -/
def NpData.read (d : NpData) (mem : List Nat) : List Nat :=
  match d with
  | .owned bs => bs
  | .view off len => (mem.drop off).take len

/-- A numpy array: shape, element dtype, and backing data. -/
structure NpArray where
  shape : List Nat
  dtype : NpDType
  data : NpData
  deriving DecidableEq, Repr

/-- Model of `np.ndarray(shape=s, dtype=dt, buffer=b)`: raises `TypeError`
when the buffer is too small for the requested shape, otherwise yields a
non-owning view of the first `s.prod` bytes of `b`. -/
def np_ndarray (shape : List Nat) (dtype : NpDType) (buf : ByteView) :
    Except PyError NpArray :=
  if shape.prod ≤ buf.len then
    .ok ⟨shape, dtype, .view buf.off shape.prod⟩
  else
    .error (.typeError "buffer is too small for requested array")

/-- Model of `ndarray.copy()`: materialise the bytes currently visible
through the array, producing an owned, independent array. -/
def NpArray.copy (a : NpArray) (mem : List Nat) : NpArray :=
  ⟨a.shape, a.dtype, .owned (a.data.read mem)⟩

/-- Row-major cell `a[i, j]` of a 3-d array of shape `[d0, d1, d2]`: the
`d2` elements starting at flat offset `(i * d1 + j) * d2` (numpy C-order
indexing), read under memory contents `mem`. -/
def NpArray.cell (a : NpArray) (mem : List Nat) (i j : Nat) : List Nat :=
  match a.shape with
  | [_, d1, d2] => ((a.data.read mem).drop ((i * d1 + j) * d2)).take d2
  | _ => []

/-- Model of `Gst.MapInfo`: its `data` member is a view of the whole
mapped buffer memory. -/
structure MapInfo where
  data : ByteView
  deriving DecidableEq, Repr

/-- Embedding of `handle_rgb(map_info, width, height)`: one `(height,
width, 3)` uint8 array over the mapped bytes, copied out.  `mem` is the
content of the mapped buffer memory at call time. -/
def handle_rgb (mem : List Nat) (map_info : MapInfo) (width height : Nat) :
    Except PyError NpArray :=
  match np_ndarray [height, width, 3] .uint8 map_info.data with
  | .error e => .error e
  | .ok a => .ok (a.copy mem)

/-- Embedding of `handle_nv12(map_info, width, height)`: a `(height,
width)` luma array over `data[:width*height]` and a `(height//2,
width//2, 2)` chroma array over `data[width*height:]`, both copied out.
The source also computes `uv_plane_size = width * height // 2` but never
uses it. -/
def handle_nv12 (mem : List Nat) (map_info : MapInfo) (width height : Nat) :
    Except PyError (NpArray × NpArray) :=
  let y_plane_size := width * height
  let _uv_plane_size := width * height / 2
  match np_ndarray [height, width] .uint8 (map_info.data.sliceTo y_plane_size) with
  | .error e => .error e
  | .ok y0 =>
    let y_plane := y0.copy mem
    match np_ndarray [height / 2, width / 2, 2] .uint8
        (map_info.data.sliceFrom y_plane_size) with
    | .error e => .error e
    | .ok uv0 => .ok (y_plane, uv0.copy mem)

/-- Embedding of `handle_yuyv(map_info, width, height)`: one `(height,
width, 2)` uint8 array over the mapped bytes, copied out. -/
def handle_yuyv (mem : List Nat) (map_info : MapInfo) (width height : Nat) :
    Except PyError NpArray :=
  match np_ndarray [height, width, 2] .uint8 map_info.data with
  | .error e => .error e
  | .ok a => .ok (a.copy mem)

/-- Value returned by `get_numpy_from_buffer`: one array, or (for NV12) a
pair of arrays. -/
inductive DecodeResult where
  | one (a : NpArray)
  | pair (y uv : NpArray)
  deriving DecidableEq, Repr

/-- Type of the entries of the dispatch table, uniformised over the two
result shapes. -/
abbrev Handler := List Nat → MapInfo → Nat → Nat → Except PyError DecodeResult

/-- Embedding of the `FORMAT_HANDLERS` dict: `.get(format)` is `none` on
a missing key. -/
def FORMAT_HANDLERS (format : String) : Option Handler :=
  if format = "RGB" then
    some fun mem mi w h =>
      match handle_rgb mem mi w h with
      | .error e => .error e
      | .ok a => .ok (.one a)
  else if format = "NV12" then
    some fun mem mi w h =>
      match handle_nv12 mem mi w h with
      | .error e => .error e
      | .ok p => .ok (.pair p.1 p.2)
  else if format = "YUYV" then
    some fun mem mi w h =>
      match handle_yuyv mem mi w h with
      | .error e => .error e
      | .ok a => .ok (.one a)
  else
    none

/-- A GStreamer buffer as the decoder sees it: the frame bytes behind the
mapping, and whether `buffer.map(Gst.MapFlags.READ)` succeeds. -/
structure GstBuffer where
  bytes : List Nat
  mapOk : Bool
  deriving DecidableEq, Repr

/-- Embedding of `get_numpy_from_buffer(buffer, format, width, height)`.
Returns the Python result (value or raised exception) together with the
number of times `buffer.unmap` ran: the `try/finally` releases the
mapping exactly once on every exit from the `try` block (normal return,
unsupported-format `ValueError`, or an exception from a handler), and not
at all when mapping failed before the `try` block was entered. -/
def get_numpy_from_buffer (buffer : GstBuffer) (format : String)
    (width height : Nat) : Except PyError DecodeResult × Nat :=
  if buffer.mapOk then
    let map_info : MapInfo := ⟨⟨0, buffer.bytes.length⟩⟩
    let body : Except PyError DecodeResult :=
      match FORMAT_HANDLERS format with
      | none => .error (.valueError ("Unsupported format: " ++ format))
      | some handler => handler buffer.bytes map_info width height
    (body, 1)
  else
    (.error (.valueError "Buffer mapping failed"), 0)

/-- Shapes of all arrays in a decode result, in order. -/
def DecodeResult.shapes : DecodeResult → List (List Nat)
  | .one a => [a.shape]
  | .pair y uv => [y.shape, uv.shape]

/-- Dtypes of all arrays in a decode result, in order. -/
def DecodeResult.dtypes : DecodeResult → List NpDType
  | .one a => [a.dtype]
  | .pair y uv => [y.dtype, uv.dtype]

/-- Bytes of every returned array, read under memory contents `mem`. -/
def DecodeResult.readAll (r : DecodeResult) (mem : List Nat) : List (List Nat) :=
  match r with
  | .one a => [a.data.read mem]
  | .pair y uv => [y.data.read mem, uv.data.read mem]

/-- Byte count implied by `(format, width, height)`: the byte-layout
table of the specification, used only to phrase exact-length
hypotheses. -/
def impliedBytes (format : String) (width height : Nat) : Nat :=
  if format = "RGB" then height * width * 3
  else if format = "NV12" then height * width + height / 2 * (width / 2) * 2
  else if format = "YUYV" then height * width * 2
  else 0

/-- Outcome of launching an external executable: the process completed
with an exit code and captured output, or the executable could not be
spawned at all (a missing binary, which the OS surfaces to Python as
`FileNotFoundError`). -/
inductive ProbeOutcome where
  | completed (returncode : Nat) (stdout : String) (stderr : String)
  | spawnFailure
  deriving DecidableEq, Repr

/-- Embedding of `detect_pkg_installed(pkg_name)`, as a function of the
outcome of running `dpkg -s pkg_name`.  `subprocess.check_output` raises
`CalledProcessError` on a non-zero exit, which the `except` clause
catches (result `False`), and `FileNotFoundError` when the `dpkg`
executable is missing, which nothing catches: that exception
propagates. -/
def detect_pkg_installed (dpkg : ProbeOutcome) : Except PyError Bool :=
  match dpkg with
  | .completed 0 _ _ => .ok true
  | .completed _ _ _ => .ok false
  | .spawnFailure => .error .fileNotFoundError

/-- Python substring test `needle in hay` on character lists. -/
def substrList (needle : List Char) : List Char → Bool
  | [] => needle.isEmpty
  | c :: rest => needle.isPrefixOf (c :: rest) || substrList needle rest

/-- Python substring test `needle in hay` on strings. -/
def pyIn (needle hay : String) : Bool :=
  substrList needle.toList hay.toList

/-- Split a character list on every occurrence of `sep`, keeping empty
fields, as Python `str.split` does with an explicit separator. -/
def splitOnChar (sep : Char) : List Char → List (List Char)
  | [] => [[]]
  | c :: rest =>
    let r := splitOnChar sep rest
    if c = sep then [] :: r
    else
      match r with
      | [] => [[c]]
      | f :: fs => (c :: f) :: fs

/-- Python `s.split('\n')`. -/
def pySplitLines (s : String) : List String :=
  (splitOnChar (Char.ofNat 10) s.toList).map fun cs => String.mk cs

/-- Embedding of the `for line in result.stdout.split('\n')` loop of
`detect_hailo_arch`: the first line containing "Device Architecture"
together with one of the device substrings decides the result, and the
"HAILO8L" test is applied before the "HAILO8" test; a "Device
Architecture" line containing neither substring is skipped. -/
def scanArchLines : List String → Option String
  | [] => none
  | line :: rest =>
    if pyIn "Device Architecture" line then
      if pyIn "HAILO8L" line then some "hailo8l"
      else if pyIn "HAILO8" line then some "hailo8"
      else scanArchLines rest
    else scanArchLines rest

/-- Embedding of `detect_hailo_arch()`, as a function of the outcome of
running `hailortcli fw-control identify`.  The whole body sits inside
`try ... except Exception`, so a spawn failure (missing executable) is
caught and yields `None`; a non-zero exit also yields `None`; otherwise
the captured stdout is scanned line by line. -/
def detect_hailo_arch (hailortcli : ProbeOutcome) : Except PyError (Option String) :=
  match hailortcli with
  | .spawnFailure => .ok none
  | .completed returncode stdout _ =>
    if returncode ≠ 0 then .ok none
    else .ok (scanArchLines (pySplitLines stdout))

/-- A `Gst.Structure` as consumed here: `get_value` on the three queried
fields (`none` models a Python `None` for an absent field). -/
structure GstStructure where
  format : Option String
  width : Option Int
  height : Option Int
  deriving DecidableEq, Repr

/-- Negotiated `Gst.Caps`: an ordered list of structures.
`caps.get_structure i` is `none` when `i` is out of range. -/
structure GstCaps where
  structures : List GstStructure
  deriving DecidableEq, Repr

/-- A `Gst.Pad` as consumed here: `get_current_caps()` returns the
negotiated caps, or `none` when no caps are negotiated. -/
structure GstPad where
  currentCaps : Option GstCaps
  deriving DecidableEq, Repr

/-- Embedding of `get_caps_from_pad(pad)`.  The outer `Option` is the
Python return value being a 3-tuple or the bare `None`: when caps are
present but `caps.get_structure(0)` is `None`, the function body falls
off the end without a `return` statement, which in Python yields `None`
rather than a 3-tuple. -/
def get_caps_from_pad (pad : GstPad) :
    Option (Option String × Option Int × Option Int) :=
  match pad.currentCaps with
  | some caps =>
    match caps.structures.head? with
    | some structure0 => some (structure0.format, structure0.width, structure0.height)
    | none => none
  | none => some (none, none, none)

/-- Negotiated caps on a real pad are always fixed caps and therefore
contain at least one structure; this decidable predicate carves out the
pads satisfying that invariant of the streaming framework. -/
def padCapsFixed (pad : GstPad) : Bool :=
  match pad.currentCaps with
  | none => true
  | some caps => !caps.structures.isEmpty

/-- Characterisation of a successful RGB decode: when the mapped length
covers the requested shape, the result is one owned uint8 array of shape
`[h, w, 3]` holding the first `h * (w * 3)` mapped bytes. -/
theorem decode_rgb_eq (bs : List Nat) (w h : Nat) (hlen : h * (w * 3) ≤ bs.length) :
    get_numpy_from_buffer ⟨bs, true⟩ "RGB" w h =
      (.ok (.one ⟨[h, w, 3], .uint8, .owned (bs.take (h * (w * 3)))⟩), 1) := by
  simp [get_numpy_from_buffer, FORMAT_HANDLERS, handle_rgb, np_ndarray,
    NpArray.copy, NpData.read, hlen]

/-- Characterisation of a successful YUYV decode: one owned uint8 array
of shape `[h, w, 2]` holding the first `h * (w * 2)` mapped bytes. -/
theorem decode_yuyv_eq (bs : List Nat) (w h : Nat) (hlen : h * (w * 2) ≤ bs.length) :
    get_numpy_from_buffer ⟨bs, true⟩ "YUYV" w h =
      (.ok (.one ⟨[h, w, 2], .uint8, .owned (bs.take (h * (w * 2)))⟩), 1) := by
  simp [get_numpy_from_buffer, FORMAT_HANDLERS, handle_yuyv, np_ndarray,
    NpArray.copy, NpData.read, hlen]

/-- Characterisation of a successful NV12 decode: an owned uint8 luma
array of shape `[h, w]` holding the first `h * w` mapped bytes, and an
owned uint8 chroma array of shape `[h / 2, w / 2, 2]` holding the bytes
from offset `w * h` on. -/
theorem decode_nv12_eq (bs : List Nat) (w h : Nat)
    (h1 : w * h ≤ bs.length)
    (h2 : h / 2 * (w / 2 * 2) ≤ bs.length - w * h) :
    get_numpy_from_buffer ⟨bs, true⟩ "NV12" w h =
      (.ok (.pair ⟨[h, w], .uint8, .owned (bs.take (h * w))⟩
        ⟨[h / 2, w / 2, 2], .uint8,
          .owned ((bs.drop (w * h)).take (h / 2 * (w / 2 * 2)))⟩), 1) := by
  have hmin : min (w * h) bs.length = w * h := Nat.min_eq_left h1
  have hyw : h * w ≤ w * h := Nat.le_of_eq (Nat.mul_comm h w)
  have hhw : h * w ≤ bs.length := Nat.le_trans hyw h1
  simp [get_numpy_from_buffer, FORMAT_HANDLERS, handle_nv12, np_ndarray,
    NpArray.copy, NpData.read, ByteView.sliceTo, ByteView.sliceFrom, hmin, h2, hyw, hhw]

/-- Helper: a successful `handle_rgb` call always returns an array whose
data is owned (the handler ends in `.copy()`). -/
theorem handle_rgb_ok_owned {mem : List Nat} {mi : MapInfo} {w h : Nat} {a : NpArray}
    (hr : handle_rgb mem mi w h = .ok a) : ∃ bs0, a.data = NpData.owned bs0 := by
  unfold handle_rgb at hr
  split at hr
  · cases hr
  · cases hr; exact ⟨_, rfl⟩

/-- Helper: a successful `handle_yuyv` call always returns an array whose
data is owned. -/
theorem handle_yuyv_ok_owned {mem : List Nat} {mi : MapInfo} {w h : Nat} {a : NpArray}
    (hr : handle_yuyv mem mi w h = .ok a) : ∃ bs0, a.data = NpData.owned bs0 := by
  unfold handle_yuyv at hr
  split at hr
  · cases hr
  · cases hr; exact ⟨_, rfl⟩

/-- Helper: a successful `handle_nv12` call always returns two arrays
whose data is owned. -/
theorem handle_nv12_ok_owned {mem : List Nat} {mi : MapInfo} {w h : Nat}
    {p : NpArray × NpArray} (hr : handle_nv12 mem mi w h = .ok p) :
    (∃ bs0, p.1.data = NpData.owned bs0) ∧ ∃ bs1, p.2.data = NpData.owned bs1 := by
  unfold handle_nv12 at hr
  dsimp only at hr
  split at hr
  · cases hr
  · split at hr
    · cases hr
    · cases hr; exact ⟨⟨_, rfl⟩, ⟨_, rfl⟩⟩

/-- Claim C1: for every supported format in RGB, NV12, YUYV and every
width and height, decoding a buffer whose mapped byte length equals
exactly the bytes implied by the format and geometry succeeds and
returns uint8 arrays with shapes exactly (height, width, 3) for RGB,
(height, width) and (height/2, width/2, 2) for NV12, and (height,
width, 2) for YUYV. -/
theorem C1_decode_shapes (buffer : GstBuffer) (format : String) (w h : Nat)
    (hmap : buffer.mapOk = true)
    (hfmt : format = "RGB" ∨ format = "NV12" ∨ format = "YUYV")
    (hlen : buffer.bytes.length = impliedBytes format w h) :
    ∃ res, (get_numpy_from_buffer buffer format w h).1 = Except.ok res ∧
      (∀ d ∈ res.dtypes, d = NpDType.uint8) ∧
      res.shapes = (if format = "RGB" then [[h, w, 3]]
        else if format = "NV12" then [[h, w], [h / 2, w / 2, 2]]
        else [[h, w, 2]]) := by
  obtain ⟨bs, mo⟩ := buffer
  simp only [GstBuffer.mapOk] at hmap
  simp only [GstBuffer.bytes] at hlen
  subst hmap
  rcases hfmt with hf | hf | hf <;> subst hf
  · have hlen' : bs.length = h * w * 3 := hlen
    have hl : h * (w * 3) ≤ bs.length := by
      rw [hlen', ← Nat.mul_assoc]
    rw [decode_rgb_eq bs w h hl]
    refine ⟨_, rfl, ?_, ?_⟩ <;> simp [DecodeResult.dtypes, DecodeResult.shapes]
  · have hlen' : bs.length = h * w + h / 2 * (w / 2) * 2 := hlen
    have h1 : w * h ≤ bs.length := by
      rw [hlen', Nat.mul_comm w h]; exact Nat.le_add_right _ _
    have h2 : h / 2 * (w / 2 * 2) ≤ bs.length - w * h := by
      rw [hlen', Nat.mul_comm w h, Nat.add_sub_cancel_left]
      exact Nat.le_of_eq (Nat.mul_assoc (h / 2) (w / 2) 2).symm
    rw [decode_nv12_eq bs w h h1 h2]
    refine ⟨_, rfl, ?_, ?_⟩ <;> simp [DecodeResult.dtypes, DecodeResult.shapes]
  · have hlen' : bs.length = h * w * 2 := hlen
    have hl : h * (w * 2) ≤ bs.length := by
      rw [hlen', ← Nat.mul_assoc]
    rw [decode_yuyv_eq bs w h hl]
    refine ⟨_, rfl, ?_, ?_⟩ <;> simp [DecodeResult.dtypes, DecodeResult.shapes]

/-- Witness for C1_decode_shapes at format RGB, width 4, height 2, and a
24-byte buffer. -/
theorem C1_decode_shapes_witness :
    (GstBuffer.mk (List.range 24) true).mapOk = true ∧
    (("RGB" : String) = "RGB" ∨ ("RGB" : String) = "NV12" ∨ ("RGB" : String) = "YUYV") ∧
    (GstBuffer.mk (List.range 24) true).bytes.length = impliedBytes "RGB" 4 2 ∧
    (∃ res, (get_numpy_from_buffer ⟨List.range 24, true⟩ "RGB" 4 2).1 = Except.ok res ∧
      (∀ d ∈ res.dtypes, d = NpDType.uint8) ∧
      res.shapes = (if ("RGB" : String) = "RGB" then [[2, 4, 3]]
        else if ("RGB" : String) = "NV12" then [[2, 4], [2 / 2, 4 / 2, 2]]
        else [[2, 4, 2]])) :=
  ⟨rfl, Or.inl rfl, by decide,
    C1_decode_shapes ⟨List.range 24, true⟩ "RGB" 4 2 rfl (Or.inl rfl) (by decide)⟩

/-- Claim C2: decoding a 12-byte buffer as NV12 with width 4 and height 2
returns a luma array of shape (2, 4) equal to the first 8 bytes
(row-major) and a chroma array of shape (1, 2, 2) equal to the last 4
bytes (the bytes from offset width*height on), both uint8 and owned. -/
theorem C2_nv12_concrete (bs : List Nat) (hlen : bs.length = 12) :
    get_numpy_from_buffer ⟨bs, true⟩ "NV12" 4 2 =
      (.ok (.pair ⟨[2, 4], .uint8, .owned (bs.take 8)⟩
        ⟨[1, 2, 2], .uint8, .owned (bs.drop 8)⟩), 1) := by
  have h1 : 4 * 2 ≤ bs.length := by omega
  have h2 : 2 / 2 * (4 / 2 * 2) ≤ bs.length - 4 * 2 := by omega
  have heq := decode_nv12_eq bs 4 2 h1 h2
  norm_num at heq
  rw [heq]
  have h3 : (bs.drop 8).take 4 = bs.drop 8 :=
    List.take_of_length_le (by simp [hlen])
  rw [h3]

/-- Witness for C2_nv12_concrete at the 12 sequential byte values 0..11. -/
theorem C2_nv12_concrete_witness :
    (List.range 12).length = 12 ∧
    get_numpy_from_buffer ⟨List.range 12, true⟩ "NV12" 4 2 =
      (.ok (.pair ⟨[2, 4], .uint8, .owned ((List.range 12).take 8)⟩
        ⟨[1, 2, 2], .uint8, .owned ((List.range 12).drop 8)⟩), 1) :=
  ⟨by decide, C2_nv12_concrete (List.range 12) (by decide)⟩

/-- Claim C3: whenever decode succeeds, the returned arrays are
independent copies: reading them under any later contents of the source
memory gives the same bytes as reading them under the contents at decode
time, so mutating or releasing the buffer after the call cannot change
them. -/
theorem C3_independent_copies (buffer : GstBuffer) (format : String) (w h : Nat)
    (res : DecodeResult)
    (hok : (get_numpy_from_buffer buffer format w h).1 = Except.ok res)
    (mem : List Nat) :
    res.readAll mem = res.readAll buffer.bytes := by
  obtain ⟨bs, mo⟩ := buffer
  cases mo
  · simp [get_numpy_from_buffer] at hok
  by_cases hR : format = "RGB"
  · subst hR
    simp only [get_numpy_from_buffer, FORMAT_HANDLERS, String.reduceEq, reduceIte,
      if_true, if_false] at hok
    cases hr : handle_rgb bs ⟨⟨0, bs.length⟩⟩ w h with
    | error e => rw [hr] at hok; simp at hok
    | ok a =>
      rw [hr] at hok
      simp only [Except.ok.injEq] at hok
      subst hok
      obtain ⟨bs0, hb⟩ := handle_rgb_ok_owned hr
      simp [DecodeResult.readAll, hb, NpData.read]
  by_cases hN : format = "NV12"
  · subst hN
    simp only [get_numpy_from_buffer, FORMAT_HANDLERS, String.reduceEq, reduceIte,
      if_true, if_false] at hok
    cases hr : handle_nv12 bs ⟨⟨0, bs.length⟩⟩ w h with
    | error e => rw [hr] at hok; simp at hok
    | ok p =>
      rw [hr] at hok
      simp only [Except.ok.injEq] at hok
      subst hok
      obtain ⟨⟨bs0, hb0⟩, ⟨bs1, hb1⟩⟩ := handle_nv12_ok_owned hr
      simp [DecodeResult.readAll, hb0, hb1, NpData.read]
  by_cases hY : format = "YUYV"
  · subst hY
    simp only [get_numpy_from_buffer, FORMAT_HANDLERS, String.reduceEq, reduceIte,
      if_true, if_false] at hok
    cases hr : handle_yuyv bs ⟨⟨0, bs.length⟩⟩ w h with
    | error e => rw [hr] at hok; simp at hok
    | ok a =>
      rw [hr] at hok
      simp only [Except.ok.injEq] at hok
      subst hok
      obtain ⟨bs0, hb⟩ := handle_yuyv_ok_owned hr
      simp [DecodeResult.readAll, hb, NpData.read]
  · simp [get_numpy_from_buffer, FORMAT_HANDLERS, hR, hN, hY] at hok

/-- Witness for C3_independent_copies: a 1 by 1 RGB decode of the bytes
[1, 2, 3], read back under completely different memory contents. -/
theorem C3_independent_copies_witness :
    ((get_numpy_from_buffer ⟨[1, 2, 3], true⟩ "RGB" 1 1).1 =
      Except.ok (.one ⟨[1, 1, 3], .uint8, .owned [1, 2, 3]⟩)) ∧
    (DecodeResult.one ⟨[1, 1, 3], .uint8, .owned [1, 2, 3]⟩).readAll [9, 9, 9] =
      (DecodeResult.one ⟨[1, 1, 3], .uint8, .owned [1, 2, 3]⟩).readAll
        (GstBuffer.mk [1, 2, 3] true).bytes :=
  ⟨by decide, C3_independent_copies ⟨[1, 2, 3], true⟩ "RGB" 1 1 _ (by decide) [9, 9, 9]⟩

/-- Claim C4: whenever mapping the buffer succeeds, the unmap operation
runs exactly once, on every exit path (normal return, unsupported-format
error, or an exception raised by a format handler). -/
theorem C4_unmap_once (buffer : GstBuffer) (format : String) (w h : Nat)
    (hmap : buffer.mapOk = true) :
    (get_numpy_from_buffer buffer format w h).2 = 1 := by
  simp [get_numpy_from_buffer, hmap]

/-- Witness for C4_unmap_once on a mappable buffer with an unsupported
format string. -/
theorem C4_unmap_once_witness :
    (GstBuffer.mk [0] true).mapOk = true ∧
    (get_numpy_from_buffer ⟨[0], true⟩ "FOO" 1 1).2 = 1 :=
  ⟨rfl, C4_unmap_once ⟨[0], true⟩ "FOO" 1 1 rfl⟩

/-- Claim C5: for every format string outside RGB, NV12, YUYV and every
buffer whose mapping succeeds, decode raises a ValueError whose message
names the requested format, returns no partial result, and the unmap
operation still runs exactly once before the error surfaces. -/
theorem C5_unsupported (buffer : GstBuffer) (format : String) (w h : Nat)
    (hmap : buffer.mapOk = true)
    (h1 : format ≠ "RGB") (h2 : format ≠ "NV12") (h3 : format ≠ "YUYV") :
    get_numpy_from_buffer buffer format w h =
      (.error (.valueError ("Unsupported format: " ++ format)), 1) ∧
    ∃ pre post, "Unsupported format: " ++ format = pre ++ format ++ post := by
  constructor
  · simp [get_numpy_from_buffer, FORMAT_HANDLERS, hmap, h1, h2, h3]
  · exact ⟨"Unsupported format: ", "", by simp⟩

/-- Witness for C5_unsupported at the format string FOO. -/
theorem C5_unsupported_witness :
    (GstBuffer.mk [0] true).mapOk = true ∧
    ("FOO" : String) ≠ "RGB" ∧ ("FOO" : String) ≠ "NV12" ∧ ("FOO" : String) ≠ "YUYV" ∧
    (get_numpy_from_buffer ⟨[0], true⟩ "FOO" 1 1 =
      (.error (.valueError ("Unsupported format: " ++ "FOO")), 1) ∧
     ∃ pre post, "Unsupported format: " ++ "FOO" = pre ++ "FOO" ++ post) :=
  ⟨rfl, by decide, by decide, by decide,
    C5_unsupported ⟨[0], true⟩ "FOO" 1 1 rfl (by decide) (by decide) (by decide)⟩

/-- Claim C6: when mapping the buffer for read reports failure, decode
raises the buffer-map ValueError, produces no result, and never calls
unmap (the unmap count is 0). -/
theorem C6_map_failure (buffer : GstBuffer) (format : String) (w h : Nat)
    (hmap : buffer.mapOk = false) :
    get_numpy_from_buffer buffer format w h =
      (.error (.valueError "Buffer mapping failed"), 0) := by
  simp [get_numpy_from_buffer, hmap]

/-- Witness for C6_map_failure on a buffer whose mapping fails. -/
theorem C6_map_failure_witness :
    (GstBuffer.mk [] false).mapOk = false ∧
    get_numpy_from_buffer ⟨[], false⟩ "RGB" 1 1 =
      (.error (.valueError "Buffer mapping failed"), 0) :=
  ⟨rfl, C6_map_failure ⟨[], false⟩ "RGB" 1 1 rfl⟩

/-- Claim C9: decoding the 24 sequential byte values 0..23 as RGB with
width 4 and height 2 returns one uint8 array of shape (2, 4, 3) that is
the row-major reinterpretation of the source bytes, with cell (0, 0)
equal to [0, 1, 2] and cell (1, 3) equal to [21, 22, 23]. -/
theorem C9_rgb_concrete :
    ∃ a, get_numpy_from_buffer ⟨List.range 24, true⟩ "RGB" 4 2 = (.ok (.one a), 1) ∧
      a.shape = [2, 4, 3] ∧ a.dtype = NpDType.uint8 ∧
      a.data.read [] = List.range 24 ∧
      a.cell [] 0 0 = [0, 1, 2] ∧ a.cell [] 1 3 = [21, 22, 23] :=
  ⟨⟨[2, 4, 3], .uint8, .owned (List.range 24)⟩, by decide⟩

/-- Counterexample for C7: a spawn failure of the dpkg executable makes
detect_pkg_installed propagate FileNotFoundError instead of returning
False or None. -/
theorem C7_counterexample :
    detect_pkg_installed ProbeOutcome.spawnFailure = Except.error PyError.fileNotFoundError ∧
    detect_pkg_installed ProbeOutcome.spawnFailure ≠ Except.ok true ∧
    detect_pkg_installed ProbeOutcome.spawnFailure ≠ Except.ok false := by
  decide

/-- Claim C7 as amended: a non-zero exit yields False from
detect_pkg_installed and None from detect_hailo_arch without an
exception, and detect_hailo_arch also swallows a spawn failure, but a
spawn failure of dpkg propagates FileNotFoundError out of
detect_pkg_installed. -/
theorem C7_amended (rc : Nat) (out err : String) (hrc : rc ≠ 0) :
    detect_pkg_installed (.completed rc out err) = .ok false ∧
    detect_hailo_arch (.completed rc out err) = .ok none ∧
    detect_hailo_arch .spawnFailure = .ok none ∧
    detect_pkg_installed .spawnFailure = .error .fileNotFoundError := by
  refine ⟨?_, ?_, rfl, rfl⟩
  · cases rc with
    | zero => exact absurd rfl hrc
    | succ n => rfl
  · simp [detect_hailo_arch, hrc]

/-- Witness for C7_amended at exit code 1 with empty output. -/
theorem C7_amended_witness :
    (1 : Nat) ≠ 0 ∧
    (detect_pkg_installed (.completed 1 "" "") = .ok false ∧
     detect_hailo_arch (.completed 1 "" "") = .ok none ∧
     detect_hailo_arch .spawnFailure = .ok none ∧
     detect_pkg_installed .spawnFailure = .error .fileNotFoundError) :=
  ⟨by decide, C7_amended 1 "" "" (by decide)⟩

/-- Claim C8: for every pad satisfying the streaming-framework invariant
that negotiated caps are fixed caps and so contain a first structure,
get_caps_from_pad returns a 3-tuple, and when no caps are negotiated all
three components are None. -/
theorem C8_caps_triple (pad : GstPad) (hfixed : padCapsFixed pad = true) :
    ∃ t : Option String × Option Int × Option Int,
      get_caps_from_pad pad = some t ∧
      (pad.currentCaps = none → t = (none, none, none)) := by
  obtain ⟨cc⟩ := pad
  cases cc with
  | none => exact ⟨(none, none, none), rfl, fun _ => rfl⟩
  | some caps =>
    cases hs : caps.structures with
    | nil => simp [padCapsFixed, hs] at hfixed
    | cons s0 rest =>
      refine ⟨(s0.format, s0.width, s0.height), ?_, by simp⟩
      simp [get_caps_from_pad, hs]

/-- Witness for C8_caps_triple on a pad with no negotiated caps. -/
theorem C8_caps_triple_witness :
    padCapsFixed ⟨none⟩ = true ∧
    ∃ t : Option String × Option Int × Option Int,
      get_caps_from_pad ⟨none⟩ = some t ∧
      ((GstPad.mk none).currentCaps = none → t = (none, none, none)) :=
  ⟨by decide, C8_caps_triple ⟨none⟩ (by decide)⟩

/-- Counterexample for C10: when an earlier line contains "Device
Architecture" with "HAILO8" and a later line contains "Device
Architecture" with "HAILO8L", the scan returns hailo8 on the earlier
line, although some line of the output contains both "Device
Architecture" and "HAILO8L". -/
theorem C10_counterexample :
    pyIn "Device Architecture" "Device Architecture: HAILO8L" = true ∧
    pyIn "HAILO8L" "Device Architecture: HAILO8L" = true ∧
    "Device Architecture: HAILO8L" ∈
      pySplitLines "Device Architecture: HAILO8\nDevice Architecture: HAILO8L" ∧
    detect_hailo_arch
      (.completed 0 "Device Architecture: HAILO8\nDevice Architecture: HAILO8L" "") =
      .ok (some "hailo8") := by
  decide

/-- Helper: the line scan returns hailo8l when the decisive line (the
first one containing "Device Architecture" with a device substring)
contains "HAILO8L". -/
theorem scanArchLines_append (pre rest : List String) (line : String)
    (hpre : ∀ l ∈ pre, pyIn "Device Architecture" l = true →
      pyIn "HAILO8" l = true → pyIn "HAILO8L" l = true)
    (hda : pyIn "Device Architecture" line = true)
    (h8l : pyIn "HAILO8L" line = true) :
    scanArchLines (pre ++ line :: rest) = some "hailo8l" := by
  induction pre with
  | nil => simp [scanArchLines, hda, h8l]
  | cons l pre ih =>
    simp only [List.cons_append, scanArchLines]
    by_cases hd : pyIn "Device Architecture" l = true
    · by_cases h8 : pyIn "HAILO8L" l = true
      · simp [hd, h8]
      · have h8f : pyIn "HAILO8" l = false := by
          cases hx : pyIn "HAILO8" l
          · rfl
          · exact absurd (hpre l (by simp) hd hx) h8
        rw [if_pos hd, if_neg (by simp [h8]), if_neg (by simp [h8f])]
        exact ih fun x hx => hpre x (List.mem_cons_of_mem _ hx)
    · rw [if_neg hd]
      exact ih fun x hx => hpre x (List.mem_cons_of_mem _ hx)

/-- Claim C10 as amended: if some line of a successful hailortcli output
contains both "Device Architecture" and "HAILO8L", and no earlier line
contains "Device Architecture" with "HAILO8" yet without "HAILO8L", then
detect_hailo_arch returns hailo8l and not hailo8: on each line the
HAILO8L substring test is applied before the HAILO8 substring test. -/
theorem C10_amended (stdout : String) (pre rest : List String) (line : String)
    (hsplit : pySplitLines stdout = pre ++ line :: rest)
    (hpre : ∀ l ∈ pre, pyIn "Device Architecture" l = true →
      pyIn "HAILO8" l = true → pyIn "HAILO8L" l = true)
    (hda : pyIn "Device Architecture" line = true)
    (h8l : pyIn "HAILO8L" line = true) :
    detect_hailo_arch (.completed 0 stdout "") = .ok (some "hailo8l") := by
  have hrun : detect_hailo_arch (.completed 0 stdout "") =
      .ok (scanArchLines (pySplitLines stdout)) := rfl
  rw [hrun, hsplit, scanArchLines_append pre rest line hpre hda h8l]

/-- Witness for C10_amended on a two-line output whose second line is the
Device Architecture HAILO8L line. -/
theorem C10_amended_witness :
    pySplitLines "Identifying\nDevice Architecture: HAILO8L" =
      ["Identifying"] ++ "Device Architecture: HAILO8L" :: [] ∧
    (∀ l ∈ ["Identifying"], pyIn "Device Architecture" l = true →
      pyIn "HAILO8" l = true → pyIn "HAILO8L" l = true) ∧
    pyIn "Device Architecture" "Device Architecture: HAILO8L" = true ∧
    pyIn "HAILO8L" "Device Architecture: HAILO8L" = true ∧
    detect_hailo_arch (.completed 0 "Identifying\nDevice Architecture: HAILO8L" "") =
      .ok (some "hailo8l") :=
  ⟨by decide, by decide, by decide, by decide,
    C10_amended "Identifying\nDevice Architecture: HAILO8L" ["Identifying"] []
      "Device Architecture: HAILO8L" (by decide) (by decide) (by decide) (by decide)⟩

end HailoRpiCommon
